import Mathlib

/-!
Verification of the Engine API state machine of oasys-op-geth
(eth/catalyst/api.go), via a shallow embedding.

Conventions of the embedding:
  * Hashes, addresses and opaque byte strings are modelled as natural
    numbers (the zero hash is 0); byte slices are lists of naturals.
  * Go maps are modelled as association lists kept in insertion order
    (updates replace in place, new keys are appended).  Go map iteration
    order is unspecified; where the source deletes "some" entry through a
    range-then-break loop, the model deterministically deletes the oldest
    (front) entry.
  * External collaborators (block insertion, canonical-head switch, the
    beacon syncer, the payload builder, stateless execution, transaction
    and witness decoding) are black boxes per the spec; their outcomes are
    oracle fields of the state so that the control flow around them is
    modelled exactly.
  * uint64 arithmetic that can wrap in Go is taken modulo 2^64.
-/

/-- Size of the uint64 domain. -/
def u64size : Nat := 2 ^ 64

/-- Go uint64 decrement by one (wraps at zero), used for number-1 lookups. -/
def pred64 (n : Nat) : Nat := (n + (u64size - 1)) % u64size

/-- invalidBlockHitEviction from api.go: number of references to an invalid
block before it is evicted and retried. -/
def invalidBlockHitEviction : Nat := 128

/-- invalidTipsetsCap from api.go: max number of tracked bad tipsets. -/
def invalidTipsetsCap : Nat := 512

/-- Association-list lookup (models Go map read). -/
def lookupA {κ α : Type} [DecidableEq κ] : List (κ × α) → κ → Option α
  | [], _ => none
  | (k2, v) :: rest, k => if k2 = k then some v else lookupA rest k

/-- Association-list insert (models Go map assignment: replace in place,
append if absent). -/
def insertA {κ α : Type} [DecidableEq κ] : List (κ × α) → κ → α → List (κ × α)
  | [], k, v => [(k, v)]
  | (k2, v2) :: rest, k, v =>
    if k2 = k then (k2, v) :: rest else (k2, v2) :: insertA rest k v

/-- Association-list delete (models Go map delete). -/
def eraseA {κ α : Type} [DecidableEq κ] (l : List (κ × α)) (k : κ) : List (κ × α) :=
  l.filter (fun p => p.1 ≠ k)

/-- A block header.  The hash field is the header's content hash
(Header.Hash() in Go), carried explicitly since hashing is abstract. -/
structure Header where
  hash : Nat
  parentHash : Nat
  number : Nat
  difficulty : Nat
  time : Nat
  withdrawalsHash : Option Nat
deriving DecidableEq, Repr

/-- A block: header plus the body parts the Engine API reads. -/
structure Block where
  header : Header
  txs : List (List Nat)
  withdrawals : Option (List Nat)
deriving DecidableEq, Repr

/-- Block.Hash() = the header hash. -/
def Block.hash (b : Block) : Nat := b.header.hash

/-- Payload status vocabulary of the Engine API. -/
inductive PStatus where
  | VALID
  | INVALID
  | SYNCING
  | ACCEPTED
  | INVALID_TERMINAL_BLOCK
deriving DecidableEq, Repr

/-- engine.PayloadStatusV1 (validation errors are abstracted to codes). -/
structure PayloadStatusV1 where
  status : PStatus
  latestValidHash : Option Nat
  validationError : Option Nat
deriving DecidableEq, Repr

/-- Error code: "links to previously rejected block". -/
def errLinksToRejected : Nat := 1
/-- Error code: "invalid timestamp". -/
def errInvalidTimestamp : Nat := 2
/-- Error code: Holocene extra-data validation failure. -/
def errHoloceneExtraData : Nat := 3
/-- Error code: "extraData must be empty before Holocene". -/
def errExtraDataNotEmpty : Nat := 4
/-- Error code: structural payload decode failure. -/
def errDecodeFailure : Nat := 5
/-- Error code: witness decode failure. -/
def errWitnessDecode : Nat := 6
/-- Error code: "parent unavailable for difficulty check". -/
def errParentUnavailable : Nat := 7
/-- Error code: invalid start/count in a bodies-by-range request. -/
def errRangeParams : Nat := 8
/-- Error code: malformed or misordered execution requests. -/
def errBadRequests : Nat := 9

/-- Structured Engine API errors (the Go error return value). -/
inductive EngErr where
  | invalidParams (code : Nat)
  | invalidPayloadAttributes (code : Nat)
  | invalidForkChoiceState (code : Nat)
  | unsupportedFork
  | unknownPayload
  | tooLargeRequest
  | txDecodeErr (idx : Nat)
  | generic (code : Nat)
deriving DecidableEq, Repr

/-- Fork tags relevant to the versioned entry points. -/
inductive Fork where
  | paris
  | shanghai
  | cancun
  | prague
  | osaka
deriving DecidableEq, Repr

/-- Chain configuration.  latestForkAt, validHoloceneExtraData and
validHolocene1559Params stand for the external params/eip1559 code (not
under the specified core); they are oracle functions. -/
structure ChainConfig where
  optimism : Bool
  holoceneTime : Option Nat
  isthmusTime : Option Nat
  latestForkAt : Nat → Fork
  validHoloceneExtraData : List Nat → Bool
  validHolocene1559Params : List Nat → Bool

/-- config.IsHolocene(timestamp). -/
def isHolocene (cfg : ChainConfig) (ts : Nat) : Bool :=
  match cfg.holoceneTime with
  | some t => decide (t ≤ ts)
  | none => false

/-- config.IsIsthmus(timestamp). -/
def isIsthmus (cfg : ChainConfig) (ts : Nat) : Bool :=
  match cfg.isthmusTime with
  | some t => decide (t ≤ ts)
  | none => false

/-- The chain-storage / sync / builder collaborators, consumed as black
boxes per the spec.  Query results are explicit data; the outcomes of the
blocking mutating operations are oracle functions. -/
structure Chain where
  config : ChainConfig
  blocks : List Block
  headers : List Header
  canonical : List (Nat × Nat)
  currentHash : Nat
  currentNumber : Nat
  stateAvail : List Nat
  fullSync : Bool
  insertOutcome : Nat → Option Nat
  setCanonicalFail : Nat → Option (Nat × Nat)
  beaconSyncErr : Option Nat
  buildFail : Option Nat
  builtPayload : Nat
  decodeTx : List Nat → Option Nat
  witnessDecodeOK : List Nat → Bool
  statelessExec : Nat → List Nat → Except Nat (Nat × Nat)

/-- BlockChain().GetBlockByHash. -/
def getBlockByHash (c : Chain) (h : Nat) : Option Block :=
  c.blocks.find? (fun b => b.header.hash == h)

/-- BlockChain().GetBlock(hash, number). -/
def getBlock (c : Chain) (h n : Nat) : Option Block :=
  c.blocks.find? (fun b => b.header.hash == h && b.header.number == n)

/-- BlockChain().GetHeader(hash, number). -/
def getHeader (c : Chain) (h n : Nat) : Option Header :=
  c.headers.find? (fun hd => hd.hash == h && hd.number == n)

/-- rawdb.ReadCanonicalHash (zero hash when the number is not canonical). -/
def readCanonicalHash (c : Chain) (n : Nat) : Nat :=
  (lookupA c.canonical n).getD 0

/-- BlockChain().GetBlockByNumber: canonical hash then body lookup. -/
def getBlockByNumber (c : Chain) (n : Nat) : Option Block :=
  match lookupA c.canonical n with
  | some h => getBlockByHash c h
  | none => none

/-- BlockChain().HasBlockAndState for a hash. -/
def hasBlockAndState (c : Chain) (h : Nat) : Bool :=
  c.stateAvail.contains h

/-- Payload build versions (engine.PayloadV1..V3). -/
inductive PVersion where
  | V1
  | V2
  | V3
deriving DecidableEq, Repr

/-- Modelled from the spec: the PayloadID derivation (miner package, not
under the specified core) is a deterministic function of exactly
{parent hash, timestamp, random, fee recipient, withdrawals-presence,
beacon-root-presence, version}; the model keeps that tuple as the
identifier itself. -/
structure PayloadID where
  version : PVersion
  parent : Nat
  timestamp : Nat
  random : Nat
  feeRecipient : Nat
  hasWithdrawals : Bool
  hasBeaconRoot : Bool
deriving DecidableEq, Repr

/-- Modelled from the spec: capacity of the bounded local-payload cache. -/
def localPayloadsCap : Nat := 10

/-- Modelled from the spec: capacity of the bounded remote-header cache. -/
def remoteBlocksCap : Nat := 256

/-- Modelled from the spec: bounded put into the local payload cache
(newest first, oldest dropped beyond capacity). -/
def putPayload (l : List (PayloadID × Nat)) (id : PayloadID) (v : Nat) :
    List (PayloadID × Nat) :=
  ((id, v) :: l).take localPayloadsCap

/-- Modelled from the spec: bounded put into the remote header cache
(oldest evicted first beyond capacity). -/
def putHeader (l : List (Nat × Header)) (k : Nat) (v : Header) :
    List (Nat × Header) :=
  let l2 := insertA l k v
  l2.drop (l2.length - remoteBlocksCap)

/-- The mutable state owned by the ConsensusAPI object.  The two liveness
booleans record whether this call stashed a last-update timestamp. -/
structure EngineState where
  chain : Chain
  remoteBlocks : List (Nat × Header)
  localPayloads : List (PayloadID × Nat)
  invalidBlocksHits : List (Nat × Nat)
  invalidTipsets : List (Nat × Header)
  syncedFlag : Bool
  finalizedPtr : Option Header
  safePtr : Option Header
  fcuStamp : Bool
  npStamp : Bool

/-- The eviction loop in checkInvalidAncestor: while the tipset map holds
at least invalidTipsetsCap entries, delete one (the model deletes the
oldest; Go deletes an unspecified one). -/
def evictTipsets (l : List (Nat × Header)) : List (Nat × Header) :=
  l.drop (l.length + 1 - invalidTipsetsCap)

/-- The latest-valid hash reported for a chain tainted by bad ancestor
inv: the ancestor's parent hash, zeroed when that parent is a locally
known proof-of-work (non-zero difficulty) header. -/
def ancestorLastValid (c : Chain) (inv : Header) : Nat :=
  match getHeader c inv.parentHash (pred64 inv.number) with
  | some ph => if ph.difficulty ≠ 0 then 0 else inv.parentHash
  | none => inv.parentHash

/-- checkInvalidAncestor from api.go: consult the invalid-tipset map for
the chain end, purge on too many hits, otherwise count the hit, taint the
new head and build the INVALID response. -/
def checkInvalidAncestor (st : EngineState) (check head : Nat) :
    Option PayloadStatusV1 × EngineState :=
  match lookupA st.invalidTipsets check with
  | none => (none, st)
  | some inv =>
    let badHash := inv.hash
    let hits := (lookupA st.invalidBlocksHits badHash).getD 0 + 1
    if invalidBlockHitEviction ≤ hits then
      (none,
       { st with
         invalidBlocksHits := eraseA st.invalidBlocksHits badHash,
         invalidTipsets := st.invalidTipsets.filter (fun p => p.2.hash ≠ badHash) })
    else
      let st1 := { st with invalidBlocksHits := insertA st.invalidBlocksHits badHash hits }
      let st2 :=
        if check ≠ head then
          { st1 with invalidTipsets := insertA (evictTipsets st1.invalidTipsets) head inv }
        else st1
      (some { status := .INVALID,
              latestValidHash := some (ancestorLastValid st.chain inv),
              validationError := some errLinksToRejected }, st2)

/-- setInvalidAncestor from api.go (downloader bad-block callback). -/
def setInvalidAncestor (st : EngineState) (invalid origin : Header) : EngineState :=
  { st with
    invalidTipsets := insertA st.invalidTipsets origin.hash invalid,
    invalidBlocksHits :=
      insertA st.invalidBlocksHits invalid.hash
        ((lookupA st.invalidBlocksHits invalid.hash).getD 0 + 1) }

theorem lookupA_insertA_self {κ α : Type} [DecidableEq κ]
    (l : List (κ × α)) (k : κ) (v : α) : lookupA (insertA l k v) k = some v := by
  induction l with
  | nil => simp [insertA, lookupA]
  | cons p rest ih =>
    by_cases h : p.1 = k
    · simp [insertA, lookupA, h]
    · simp [insertA, lookupA, h, ih]

theorem lookupA_eraseA_self {κ α : Type} [DecidableEq κ]
    (l : List (κ × α)) (k : κ) : lookupA (eraseA l k) k = none := by
  induction l with
  | nil => simp [eraseA, lookupA]
  | cons p rest ih =>
    by_cases h : p.1 = k
    · simpa [eraseA, h] using ih
    · simpa [eraseA, lookupA, h] using ih

theorem lookupA_filter_prop {κ α : Type} [DecidableEq κ]
    (l : List (κ × α)) (p : κ × α → Bool) (k : κ) (v : α)
    (h : lookupA (l.filter p) k = some v) : p (k, v) = true := by
  induction l with
  | nil => simp [lookupA] at h
  | cons q rest ih =>
    by_cases hp : p q = true
    · rw [List.filter_cons_of_pos hp] at h
      by_cases hk : q.1 = k
      · rw [lookupA, if_pos hk] at h
        have hv : q.2 = v := Option.some.inj h
        have hq : q = (k, v) := by
          cases q with
          | mk a b =>
            simp only at hk hv
            rw [hk, hv]
        rw [← hq]; exact hp
      · rw [lookupA, if_neg hk] at h
        exact ih h
    · rw [List.filter_cons_of_neg (by simpa using hp)] at h
      exact ih h

/-- engine.ExecutableData, restricted to the fields the control flow of
newPayload reads before and during conversion.  decodeOK is modelled from
the spec: it stands for the outcome of the structural wire-payload
conversion (engine.ExecutableDataToBlock, external to the specified core),
which checks roots, field combinations and the block hash. -/
structure ExecData where
  blockHash : Nat
  parentHash : Nat
  number : Nat
  timestamp : Nat
  extraData : List Nat
  txs : List (List Nat)
  withdrawals : Option (List Nat)
  withdrawalsRoot : Option Nat
  excessBlobGas : Option Nat
  blobGasUsed : Option Nat
  decodeOK : Bool
deriving DecidableEq, Repr

/-- Conversion of the wire payload into a block object.  Post-transition
payload blocks carry zero difficulty; the hash equals the advertised block
hash (the conversion verifies this). -/
def decodeExecData (p : ExecData) : Option Block :=
  if p.decodeOK then
    some { header := { hash := p.blockHash, parentHash := p.parentHash,
                       number := p.number, difficulty := 0, time := p.timestamp,
                       withdrawalsHash := p.withdrawalsRoot },
           txs := p.txs, withdrawals := p.withdrawals }
  else none

/-- The invalid() helper of api.go: INVALID response whose latest-valid
hash is the given header's own hash, zeroed when that header still has
proof-of-work difficulty, or absent when no header is supplied. -/
def invalidResp (e : Nat) (latestValid : Option Header) : PayloadStatusV1 :=
  match latestValid with
  | none => { status := .INVALID, latestValidHash := none, validationError := some e }
  | some h =>
    { status := .INVALID,
      latestValidHash := some (if h.difficulty ≠ 0 then 0 else h.hash),
      validationError := some e }

/-- The OP-Stack extra-data gate at the top of newPayload: post-Holocene
the extra data must satisfy the Holocene encoding; pre-Holocene on an
Optimism chain it must be empty. -/
def npExtraDataGate (cfg : ChainConfig) (p : ExecData) : Option Nat :=
  if isHolocene cfg p.timestamp then
    if cfg.validHoloceneExtraData p.extraData then none else some errHoloceneExtraData
  else if cfg.optimism ∧ p.extraData ≠ [] then some errExtraDataNotEmpty
  else none

/-- delayPayloadImport from api.go: taint check against the parent, stash
the header in the remote cache, try to extend a running sync (outcome
observable only in logs) and answer SYNCING. -/
def delayPayloadImport (st : EngineState) (block : Block) :
    PayloadStatusV1 × EngineState :=
  match checkInvalidAncestor st block.header.parentHash block.hash with
  | (some res, st1) => (res, st1)
  | (none, st1) =>
    ({ status := .SYNCING, latestValidHash := none, validationError := none },
     { st1 with remoteBlocks := putHeader st1.remoteBlocks block.hash block.header })

/-- newPayload from api.go.  The witness flag only changes what the
insertion collaborator returns alongside success and is not observable in
the modelled response. -/
def newPayload (st : EngineState) (p : ExecData) : PayloadStatusV1 × EngineState :=
  match npExtraDataGate st.chain.config p with
  | some e => (invalidResp e none, st)
  | none =>
    match decodeExecData p with
    | none => (invalidResp errDecodeFailure none, st)
    | some block =>
      let st0 := { st with npStamp := true }
      match getBlockByHash st0.chain p.blockHash with
      | some b =>
        ({ status := .VALID, latestValidHash := some b.hash, validationError := none }, st0)
      | none =>
        match checkInvalidAncestor st0 block.hash block.hash with
        | (some res, st1) => (res, st1)
        | (none, st1) =>
          match getBlock st1.chain block.header.parentHash (pred64 block.header.number) with
          | none => delayPayloadImport st1 block
          | some parent =>
            if block.header.time ≤ parent.header.time then
              (invalidResp errInvalidTimestamp (some parent.header), st1)
            else if ¬ st1.chain.fullSync then delayPayloadImport st1 block
            else if ¬ hasBlockAndState st1.chain block.header.parentHash then
              ({ status := .ACCEPTED, latestValidHash := none, validationError := none },
               { st1 with remoteBlocks := putHeader st1.remoteBlocks block.hash block.header })
            else
              match st1.chain.insertOutcome block.hash with
              | some e =>
                (invalidResp e (some parent.header),
                 { st1 with
                   invalidBlocksHits := insertA st1.invalidBlocksHits block.hash 1,
                   invalidTipsets := insertA st1.invalidTipsets block.hash block.header })
              | none =>
                ({ status := .VALID, latestValidHash := some block.hash, validationError := none },
                 { st1 with chain := { st1.chain with blocks := block :: st1.chain.blocks } })

/-- engine.ForkchoiceStateV1. -/
structure ForkchoiceStateV1 where
  headBlockHash : Nat
  safeBlockHash : Nat
  finalizedBlockHash : Nat
deriving DecidableEq, Repr

/-- engine.PayloadAttributes (OP-Stack extended form). -/
structure PayloadAttributes where
  timestamp : Nat
  random : Nat
  suggestedFeeRecipient : Nat
  withdrawals : Option (List Nat)
  beaconRoot : Option Nat
  noTxPool : Bool
  transactions : List (List Nat)
  gasLimit : Option Nat
  eip1559Params : List Nat
deriving Repr

/-- engine.ForkChoiceResponse. -/
structure FCUResponse where
  payloadStatus : PayloadStatusV1
  payloadID : Option PayloadID
deriving DecidableEq, Repr

/-- engine.STATUS_INVALID. -/
def fcuStatusInvalid : FCUResponse :=
  { payloadStatus := { status := .INVALID, latestValidHash := none, validationError := none },
    payloadID := none }

/-- engine.STATUS_SYNCING. -/
def fcuStatusSyncing : FCUResponse :=
  { payloadStatus := { status := .SYNCING, latestValidHash := none, validationError := none },
    payloadID := none }

/-- The valid() closure inside forkchoiceUpdated. -/
def fcuValid (head : Nat) (id : Option PayloadID) : FCUResponse :=
  { payloadStatus := { status := .VALID, latestValidHash := some head, validationError := none },
    payloadID := id }

/-- The PayloadID derivation for a build request (args.Id() in the miner
package); see PayloadID for the spec-modelled identifier shape. -/
def deriveId (parent : Nat) (pa : PayloadAttributes) (pv : PVersion) : PayloadID :=
  { version := pv, parent := parent, timestamp := pa.timestamp, random := pa.random,
    feeRecipient := pa.suggestedFeeRecipient, hasWithdrawals := pa.withdrawals.isSome,
    hasBeaconRoot := pa.beaconRoot.isSome }

/-- Sequential decoding of the raw transactions of the attributes; returns
the first failing index (tx.UnmarshalBinary is the chain's oracle). -/
def decodeTxList (c : Chain) : List (List Nat) → Nat → Option Nat
  | [], _ => none
  | tx :: rest, i =>
    match c.decodeTx tx with
    | some _ => decodeTxList c rest (i + 1)
    | none => some i

/-- The finalized-pointer section of forkchoiceUpdated: a non-zero
finalized hash must be a locally known canonical block. -/
def fcuSetFinalized (st : EngineState) (fh : Nat) :
    Except (FCUResponse × Option EngErr) EngineState :=
  if fh = 0 then .ok st
  else
    match getBlockByHash st.chain fh with
    | none => .error (fcuStatusInvalid, some (.invalidForkChoiceState 1))
    | some fb =>
      if readCanonicalHash st.chain fb.header.number ≠ fh then
        .error (fcuStatusInvalid, some (.invalidForkChoiceState 2))
      else .ok { st with finalizedPtr := some fb.header }

/-- The safe-pointer section of forkchoiceUpdated: a non-zero safe hash
must be a locally known canonical block. -/
def fcuSetSafe (st : EngineState) (sh : Nat) :
    Except (FCUResponse × Option EngErr) EngineState :=
  if sh = 0 then .ok st
  else
    match getBlockByHash st.chain sh with
    | none => .error (fcuStatusInvalid, some (.invalidForkChoiceState 3))
    | some sb =>
      if readCanonicalHash st.chain sb.header.number ≠ sh then
        .error (fcuStatusInvalid, some (.invalidForkChoiceState 4))
      else .ok { st with safePtr := some sb.header }

/-- The payload-construction section of forkchoiceUpdated: OP-Stack
attribute gates, transaction decoding, idempotent build-cache check, then
the builder collaborator. -/
def fcuAttrs (st : EngineState) (headHash : Nat) (attrs : Option PayloadAttributes)
    (pv : PVersion) : FCUResponse × Option EngErr × EngineState :=
  match attrs with
  | none => (fcuValid headHash none, none, st)
  | some pa =>
    if st.chain.config.optimism ∧ pa.gasLimit = none then
      (fcuStatusInvalid, some (.invalidPayloadAttributes 1), st)
    else if st.chain.config.optimism ∧ isHolocene st.chain.config pa.timestamp
        ∧ ¬ st.chain.config.validHolocene1559Params pa.eip1559Params then
      (fcuStatusInvalid, some (.invalidPayloadAttributes 2), st)
    else if st.chain.config.optimism ∧ ¬ isHolocene st.chain.config pa.timestamp
        ∧ pa.eip1559Params ≠ [] then
      (fcuStatusInvalid, some (.invalidPayloadAttributes 3), st)
    else
      match decodeTxList st.chain pa.transactions 0 with
      | some i => (fcuStatusInvalid, some (.txDecodeErr i), st)
      | none =>
        let id := deriveId headHash pa pv
        if (lookupA st.localPayloads id).isSome then (fcuValid headHash (some id), none, st)
        else
          match st.chain.buildFail with
          | some e => (fcuValid headHash none, some (.invalidPayloadAttributes e), st)
          | none =>
            (fcuValid headHash (some id), none,
             { st with localPayloads := putPayload st.localPayloads id st.chain.builtPayload })

/-- Everything forkchoiceUpdated does once the head is committed: mark the
node synced, process finalized and safe pointers, then attributes. -/
def fcuPostHead (st : EngineState) (update : ForkchoiceStateV1)
    (attrs : Option PayloadAttributes) (pv : PVersion) :
    FCUResponse × Option EngErr × EngineState :=
  let st1 := { st with syncedFlag := true }
  match fcuSetFinalized st1 update.finalizedBlockHash with
  | .error (r, e) => (r, e, st1)
  | .ok st2 =>
    match fcuSetSafe st2 update.safeBlockHash with
    | .error (r, e) => (r, e, st2)
    | .ok st3 => fcuAttrs st3 update.headBlockHash attrs pv

/-- On a successful SetCanonical the chain collaborator switches its head
to the given block. -/
def applySetCanonical (c : Chain) (b : Block) : Chain :=
  { c with currentHash := b.hash, currentNumber := b.header.number,
           canonical := insertA c.canonical b.header.number b.hash }

/-- The canonical-head switch section of forkchoiceUpdated.  When the head
is already canonical but stale, a chain without the Optimism config
ignores the update; with it, processing continues (proposer self-reorg
allowance). -/
def fcuHeadSwitch (st : EngineState) (update : ForkchoiceStateV1)
    (attrs : Option PayloadAttributes) (pv : PVersion) (block : Block) :
    FCUResponse × Option EngErr × EngineState :=
  if readCanonicalHash st.chain block.header.number ≠ update.headBlockHash then
    match st.chain.setCanonicalFail block.hash with
    | some (lv, e) =>
      ({ payloadStatus := { status := .INVALID, latestValidHash := some lv,
                            validationError := none }, payloadID := none },
       some (.generic e), st)
    | none => fcuPostHead { st with chain := applySetCanonical st.chain block } update attrs pv
  else if st.chain.currentHash = update.headBlockHash then
    fcuPostHead st update attrs pv
  else if ¬ st.chain.config.optimism then
    (fcuValid update.headBlockHash none, none, st)
  else fcuPostHead st update attrs pv

/-- forkchoiceUpdated from api.go (the shared core of the versioned entry
points): zero-head rejection, liveness stamp, head resolution with taint
check and sync trigger, terminal-block sanity check, canonical-head
switch with the Optimism stale-head divergence, then the committed-head
continuation. -/
def forkchoiceUpdated (st : EngineState) (update : ForkchoiceStateV1)
    (attrs : Option PayloadAttributes) (pv : PVersion) :
    FCUResponse × Option EngErr × EngineState :=
  if update.headBlockHash = 0 then (fcuStatusInvalid, none, st)
  else
    let st0 := { st with fcuStamp := true }
    match getBlockByHash st0.chain update.headBlockHash with
    | none =>
      match checkInvalidAncestor st0 update.headBlockHash update.headBlockHash with
      | (some res, st1) => ({ payloadStatus := res, payloadID := none }, none, st1)
      | (none, st1) =>
        match lookupA st1.remoteBlocks update.headBlockHash with
        | none => (fcuStatusSyncing, none, st1)
        | some _ =>
          match st1.chain.beaconSyncErr with
          | some e => (fcuStatusSyncing, some (.generic e), st1)
          | none => (fcuStatusSyncing, none, st1)
    | some block =>
      if block.header.difficulty ≠ 0 ∧ block.header.number ≠ 0 then
        match getHeader st0.chain block.header.parentHash (pred64 block.header.number) with
        | none => (fcuStatusInvalid, some (.generic errParentUnavailable), st0)
        | some ph =>
          if ph.difficulty = 0 then
            ({ payloadStatus := { status := .INVALID_TERMINAL_BLOCK,
                                  latestValidHash := none, validationError := none },
               payloadID := none }, none, st0)
          else fcuHeadSwitch st0 update attrs pv block
      else fcuHeadSwitch st0 update attrs pv block

/-- getPayload from api.go: pure cache lookup, unknown ids rejected. -/
def getPayload (st : EngineState) (id : PayloadID) : Except EngErr Nat :=
  match lookupA st.localPayloads id with
  | none => .error .unknownPayload
  | some v => .ok v

/-- GetPayloadV1: accepts only ids built as PayloadV1. -/
def GetPayloadV1 (st : EngineState) (id : PayloadID) : Except EngErr Nat :=
  if id.version ≠ .V1 then .error .unsupportedFork
  else getPayload st id

/-- GetPayloadV2: accepts ids built as PayloadV1 or PayloadV2. -/
def GetPayloadV2 (st : EngineState) (id : PayloadID) : Except EngErr Nat :=
  if ¬ (id.version = .V1 ∨ id.version = .V2) then .error .unsupportedFork
  else getPayload st id

/-- GetPayloadV3: accepts only ids built as PayloadV3. -/
def GetPayloadV3 (st : EngineState) (id : PayloadID) : Except EngErr Nat :=
  if id.version ≠ .V3 then .error .unsupportedFork
  else getPayload st id

/-- GetPayloadV4: accepts only ids built as PayloadV3 (there is no
PayloadV4 build version). -/
def GetPayloadV4 (st : EngineState) (id : PayloadID) : Except EngErr Nat :=
  if id.version ≠ .V3 then .error .unsupportedFork
  else getPayload st id

/-- engine.ExecutionPayloadBody, restricted to the modelled fields. -/
structure PayloadBody where
  transactionData : List (List Nat)
  withdrawals : Option (List Nat)
deriving DecidableEq, Repr

/-- getBody from api.go: nil blocks give nil entries; a nil withdrawals
list is replaced by the empty slice when the header carries a
withdrawals hash. -/
def getBody (b : Option Block) : Option PayloadBody :=
  match b with
  | none => none
  | some block =>
    some { transactionData := block.txs,
           withdrawals :=
             if block.withdrawals = none ∧ block.header.withdrawalsHash ≠ none then
               some []
             else block.withdrawals }

/-- GetPayloadBodiesByHashV1: one entry per requested hash. -/
def GetPayloadBodiesByHashV1 (st : EngineState) (hashes : List Nat) :
    List (Option PayloadBody) :=
  hashes.map (fun h => getBody (getBlockByHash st.chain h))

/-- getBodiesByRange from api.go: start and count must be non-zero, count
is capped at 1024, and the range is clipped to the current chain height
(uint64 arithmetic). -/
def getBodiesByRange (st : EngineState) (start count : Nat) :
    Except EngErr (List (Option PayloadBody)) :=
  if start = 0 ∨ count = 0 then .error (.invalidParams errRangeParams)
  else if 1024 < count then .error .tooLargeRequest
  else
    let current := st.chain.currentNumber
    let last0 := (start + count - 1) % u64size
    let last := if current < last0 then current else last0
    .ok ((List.range (last + 1 - start)).map
          (fun i => getBody (getBlockByNumber st.chain (start + i))))

/-- validateRequests from api.go, one step: each request needs at least
two bytes and the leading type bytes must strictly increase. -/
def validateRequestsAux (prev : Option Nat) : List (List Nat) → Bool
  | [] => true
  | req :: rest =>
    if req.length < 2 then false
    else
      match prev with
      | some p => if req.headD 0 ≤ p then false else validateRequestsAux (some (req.headD 0)) rest
      | none => validateRequestsAux (some (req.headD 0)) rest

/-- validateRequests from api.go. -/
def validateRequests (requests : List (List Nat)) : Bool :=
  validateRequestsAux none requests

/-- An INVALID payload status with no further data, as produced by the
versioned wrappers when a field-presence rule fails. -/
def statusOnlyInvalid : PayloadStatusV1 :=
  { status := .INVALID, latestValidHash := none, validationError := none }

/-- NewPayloadV4 from api.go (the witness variant behaves identically in
the modelled observables): per-fork field-presence checks, execution
requests validation, then the shared newPayload core. -/
def NewPayloadV4 (st : EngineState) (p : ExecData) (versionedHashes : Option (List Nat))
    (beaconRoot : Option Nat) (executionRequests : Option (List (List Nat))) :
    (PayloadStatusV1 × Option EngErr) × EngineState :=
  if p.withdrawals = none then ((statusOnlyInvalid, some (.invalidParams 1)), st)
  else if p.excessBlobGas = none then ((statusOnlyInvalid, some (.invalidParams 2)), st)
  else if p.blobGasUsed = none then ((statusOnlyInvalid, some (.invalidParams 3)), st)
  else if versionedHashes = none then ((statusOnlyInvalid, some (.invalidParams 4)), st)
  else if beaconRoot = none then ((statusOnlyInvalid, some (.invalidParams 5)), st)
  else if executionRequests = none then ((statusOnlyInvalid, some (.invalidParams 6)), st)
  else if st.chain.config.latestForkAt p.timestamp ≠ .prague then
    ((statusOnlyInvalid, some .unsupportedFork), st)
  else if isIsthmus st.chain.config p.timestamp ∧ p.withdrawalsRoot = none then
    ((statusOnlyInvalid, some (.invalidParams 7)), st)
  else if ¬ validateRequests (executionRequests.getD []) then
    ((statusOnlyInvalid, some (.invalidParams errBadRequests)), st)
  else
    let (res, st1) := newPayload st p
    ((res, none), st1)

/-- NewPayloadWithWitnessV4 from api.go: same checks as NewPayloadV4, the
witness flag being unobservable in the model. -/
def NewPayloadWithWitnessV4 (st : EngineState) (p : ExecData)
    (versionedHashes : Option (List Nat)) (beaconRoot : Option Nat)
    (executionRequests : Option (List (List Nat))) :
    (PayloadStatusV1 × Option EngErr) × EngineState :=
  if p.withdrawals = none then ((statusOnlyInvalid, some (.invalidParams 1)), st)
  else if p.excessBlobGas = none then ((statusOnlyInvalid, some (.invalidParams 2)), st)
  else if p.blobGasUsed = none then ((statusOnlyInvalid, some (.invalidParams 3)), st)
  else if versionedHashes = none then ((statusOnlyInvalid, some (.invalidParams 4)), st)
  else if beaconRoot = none then ((statusOnlyInvalid, some (.invalidParams 5)), st)
  else if executionRequests = none then ((statusOnlyInvalid, some (.invalidParams 6)), st)
  else if st.chain.config.latestForkAt p.timestamp ≠ .prague then
    ((statusOnlyInvalid, some .unsupportedFork), st)
  else if isIsthmus st.chain.config p.timestamp ∧ p.withdrawalsRoot = none then
    ((statusOnlyInvalid, some (.invalidParams 7)), st)
  else if ¬ validateRequests (executionRequests.getD []) then
    ((statusOnlyInvalid, some (.invalidParams errBadRequests)), st)
  else
    let (res, st1) := newPayload st p
    ((res, none), st1)

/-- engine.StatelessPayloadStatusV1. -/
structure StatelessStatus where
  status : PStatus
  stateRoot : Option Nat
  receiptsRoot : Option Nat
  validationError : Option Nat
deriving DecidableEq, Repr

/-- executeStatelessPayload from api.go: decode the payload and the
caller-supplied witness, run the stateless executor, report roots; no
chain mutation beyond the liveness stamp. -/
def executeStatelessPayload (st : EngineState) (p : ExecData) (w : List Nat) :
    (StatelessStatus × Option EngErr) × EngineState :=
  match decodeExecData p with
  | none =>
    (({ status := .INVALID, stateRoot := none, receiptsRoot := none,
        validationError := some errDecodeFailure }, none), st)
  | some block =>
    if ¬ st.chain.witnessDecodeOK w then
      (({ status := .INVALID, stateRoot := none, receiptsRoot := none,
          validationError := some errWitnessDecode }, none), st)
    else
      let st1 := { st with npStamp := true }
      match st1.chain.statelessExec block.hash w with
      | .error e =>
        (({ status := .INVALID, stateRoot := none, receiptsRoot := none,
            validationError := some e }, none), st1)
      | .ok (sr, rr) =>
        (({ status := .VALID, stateRoot := some sr, receiptsRoot := some rr,
            validationError := none }, none), st1)

/-- ExecuteStatelessPayloadV4 from api.go: the same per-fork presence
checks as NewPayloadV4, but no execution-requests validation before the
stateless core. -/
def ExecuteStatelessPayloadV4 (st : EngineState) (p : ExecData)
    (versionedHashes : Option (List Nat)) (beaconRoot : Option Nat)
    (executionRequests : Option (List (List Nat))) (w : List Nat) :
    (StatelessStatus × Option EngErr) × EngineState :=
  if p.withdrawals = none then
    ((⟨.INVALID, none, none, none⟩, some (.invalidParams 1)), st)
  else if p.excessBlobGas = none then
    ((⟨.INVALID, none, none, none⟩, some (.invalidParams 2)), st)
  else if p.blobGasUsed = none then
    ((⟨.INVALID, none, none, none⟩, some (.invalidParams 3)), st)
  else if versionedHashes = none then
    ((⟨.INVALID, none, none, none⟩, some (.invalidParams 4)), st)
  else if beaconRoot = none then
    ((⟨.INVALID, none, none, none⟩, some (.invalidParams 5)), st)
  else if executionRequests = none then
    ((⟨.INVALID, none, none, none⟩, some (.invalidParams 6)), st)
  else if st.chain.config.latestForkAt p.timestamp ≠ .prague then
    ((⟨.INVALID, none, none, none⟩, some .unsupportedFork), st)
  else executeStatelessPayload st p w

/-! Concrete fixtures used by counterexamples and witnesses. -/

/-- Genesis header of the example chain. -/
def gHdr : Header := ⟨1, 0, 0, 0, 0, none⟩
/-- Header of example block number 1. -/
def aHdr : Header := ⟨2, 1, 1, 0, 10, none⟩
/-- Header of example block number 2 (the example chain tip). -/
def bHdr : Header := ⟨3, 2, 2, 0, 20, none⟩
/-- Genesis block of the example chain. -/
def gBlock : Block := ⟨gHdr, [], none⟩
/-- Example block number 1. -/
def aBlock : Block := ⟨aHdr, [], none⟩
/-- Example block number 2. -/
def bBlock : Block := ⟨bHdr, [], none⟩

/-- Example config without the Optimism chain flag. -/
def exCfg : ChainConfig :=
  ⟨false, none, none, fun _ => .prague, fun _ => true, fun _ => true⟩

/-- Example config with the Optimism chain flag, pre-Holocene. -/
def exCfgOpt : ChainConfig :=
  ⟨true, none, none, fun _ => .prague, fun _ => true, fun _ => true⟩

/-- A three-block example chain with all side-effect oracles succeeding. -/
def exChain : Chain :=
  { config := exCfg, blocks := [gBlock, aBlock, bBlock], headers := [gHdr, aHdr, bHdr],
    canonical := [(0, 1), (1, 2), (2, 3)], currentHash := 3, currentNumber := 2,
    stateAvail := [1, 2, 3], fullSync := true,
    insertOutcome := fun _ => none, setCanonicalFail := fun _ => none,
    beaconSyncErr := none, buildFail := none, builtPayload := 42,
    decodeTx := fun _ => some 0, witnessDecodeOK := fun _ => true,
    statelessExec := fun _ _ => .ok (5, 6) }

/-- A fresh engine state over a given chain. -/
def baseState (c : Chain) : EngineState :=
  { chain := c, remoteBlocks := [], localPayloads := [], invalidBlocksHits := [],
    invalidTipsets := [], syncedFlag := false, finalizedPtr := none, safePtr := none,
    fcuStamp := false, npStamp := false }

/-- The example engine state. -/
def exState : EngineState := baseState exChain

/-- C6: a fork-choice update whose head hash is the zero hash returns the
INVALID response with no Go error and leaves the whole engine state
untouched (no liveness stamp, no pointer, cache or tracker change, no
sync start). -/
theorem fcu_zero_head_no_effects (st : EngineState) (update : ForkchoiceStateV1)
    (attrs : Option PayloadAttributes) (pv : PVersion)
    (h : update.headBlockHash = 0) :
    forkchoiceUpdated st update attrs pv = (fcuStatusInvalid, none, st) := by
  simp [forkchoiceUpdated, h]

/-- Witness for C6 at a concrete zero-head call. -/
theorem fcu_zero_head_no_effects_witness :
    (⟨0, 3, 1⟩ : ForkchoiceStateV1).headBlockHash = 0 ∧
    forkchoiceUpdated exState ⟨0, 3, 1⟩ none .V1 = (fcuStatusInvalid, none, exState) :=
  ⟨rfl, fcu_zero_head_no_effects exState ⟨0, 3, 1⟩ none .V1 rfl⟩

/-- C7: getPayloadBodiesByRange rejects a zero start or count as invalid
params, rejects (never clips) a count beyond 1024 as too large, and
otherwise returns one body per block number from start through
min(start+count-1, current chain height). -/
theorem bodies_by_range_spec (st : EngineState) (start count : Nat) :
    (start = 0 ∨ count = 0 →
      getBodiesByRange st start count = .error (.invalidParams errRangeParams))
    ∧ (¬ (start = 0 ∨ count = 0) → 1024 < count →
      getBodiesByRange st start count = .error .tooLargeRequest)
    ∧ (¬ (start = 0 ∨ count = 0) → count ≤ 1024 → start + count - 1 < u64size →
      getBodiesByRange st start count =
        .ok ((List.range (min (start + count - 1) st.chain.currentNumber + 1 - start)).map
              (fun i => getBody (getBlockByNumber st.chain (start + i))))) := by
  refine ⟨fun h => by simp [getBodiesByRange, h], fun h1 h2 => ?_, fun h1 h2 h3 => ?_⟩
  · rw [getBodiesByRange, if_neg h1, if_pos h2]
  · have hmod : (start + count - 1) % u64size = start + count - 1 := Nat.mod_eq_of_lt h3
    have key : (if st.chain.currentNumber < (start + count - 1) % u64size then
          st.chain.currentNumber else (start + count - 1) % u64size) =
        min (start + count - 1) st.chain.currentNumber := by
      rw [hmod, min_def]
      split_ifs <;> omega
    simp only [getBodiesByRange, if_neg h1, if_neg (show ¬ 1024 < count by omega), key]

/-- Witness for C7: start=1, count=2000 is rejected as too large (not
clipped); start=1, count=2 returns the clipped per-number bodies. -/
theorem bodies_by_range_spec_witness :
    (getBodiesByRange exState 1 2000 = .error .tooLargeRequest)
    ∧ (getBodiesByRange exState 1 2 =
        .ok ((List.range (min (1 + 2 - 1) exState.chain.currentNumber + 1 - 1)).map
              (fun i => getBody (getBlockByNumber exState.chain (1 + i))))) :=
  ⟨(bodies_by_range_spec exState 1 2000).2.1 (by omega) (by omega),
   (bodies_by_range_spec exState 1 2).2.2 (by omega) (by omega) (by decide)⟩

/-- C10: payload-body entries are built per position by getBody, so an
unknown hash yields a nil entry (not an error); and when the header
carries a withdrawals hash the returned withdrawals list is never nil (a
nil body list becomes the empty slice). -/
theorem payload_body_entries (st : EngineState) (hashes : List Nat) (b : Block) :
    GetPayloadBodiesByHashV1 st hashes =
      hashes.map (fun h => getBody (getBlockByHash st.chain h))
    ∧ getBody none = none
    ∧ (b.header.withdrawalsHash ≠ none →
        getBody (some b) = some { transactionData := b.txs,
                                  withdrawals := some (b.withdrawals.getD []) }) := by
  refine ⟨rfl, rfl, fun h => ?_⟩
  cases hw : b.withdrawals with
  | none => simp [getBody, hw, h]
  | some l => simp [getBody, hw]

/-- Witness for C10 at a block with a withdrawals hash but nil
withdrawals list. -/
theorem payload_body_entries_witness :
    ((⟨⟨9, 3, 3, 0, 30, some 77⟩, [[1, 2]], none⟩ : Block).header.withdrawalsHash ≠ none)
    ∧ getBody (some ⟨⟨9, 3, 3, 0, 30, some 77⟩, [[1, 2]], none⟩) =
        some { transactionData := [[1, 2]], withdrawals := some [] } :=
  ⟨by decide,
   (payload_body_entries exState [] ⟨⟨9, 3, 3, 0, 30, some 77⟩, [[1, 2]], none⟩).2.2
     (by decide)⟩

/-- A bad ancestor header used by the invalid-tracker examples. -/
def badHdr : Header := ⟨50, 40, 5, 0, 0, none⟩

/-- State whose tracker holds tipset 60 ↦ badHdr with a stored hit count
of 127, one below the eviction threshold. -/
def c1State : EngineState :=
  { baseState exChain with invalidTipsets := [(60, badHdr)],
                           invalidBlocksHits := [(50, 127)] }

/-- C1 counterexample: with the stored hit count at 127 (strictly below
the eviction threshold of 128) the claim demands an incremented count and
a rejection, but checkInvalidAncestor purges the tracker and returns no
rejection, because the source increments before comparing against the
threshold. -/
theorem checkInvalidAncestor_boundary_cex :
    lookupA c1State.invalidTipsets 60 = some badHdr
    ∧ lookupA c1State.invalidBlocksHits badHdr.hash = some 127
    ∧ 127 < invalidBlockHitEviction
    ∧ (checkInvalidAncestor c1State 60 60).1 = none
    ∧ lookupA (checkInvalidAncestor c1State 60 60).2.invalidBlocksHits badHdr.hash = none
    ∧ lookupA (checkInvalidAncestor c1State 60 60).2.invalidTipsets 60 = none := by
  decide

/-- C1 (amended): checkInvalidAncestor leaves the state alone and rejects
nothing for untracked hashes; when the candidate is tracked and its bad
ancestor's hit count reaches the 128 threshold after this call's
increment (stored count at least 127), the hit entry and every tipset
entry referencing the ancestor are purged and no rejection is returned;
below the threshold the stored count becomes old+1, the head is tainted
whenever it differs from the candidate (evicting oldest tipset entries
down to the 512 cap first) and the rejection is INVALID with the
ancestor's parent hash (zeroed when that parent is a known proof-of-work
header) and a reason. -/
theorem checkInvalidAncestor_amended (st : EngineState) (check head : Nat) :
    (lookupA st.invalidTipsets check = none →
      checkInvalidAncestor st check head = (none, st))
    ∧ (∀ inv, lookupA st.invalidTipsets check = some inv →
        (invalidBlockHitEviction ≤ (lookupA st.invalidBlocksHits inv.hash).getD 0 + 1 →
          (checkInvalidAncestor st check head).1 = none
          ∧ lookupA (checkInvalidAncestor st check head).2.invalidBlocksHits inv.hash = none
          ∧ ∀ d hd,
              lookupA (checkInvalidAncestor st check head).2.invalidTipsets d = some hd →
              hd.hash ≠ inv.hash)
        ∧ ((lookupA st.invalidBlocksHits inv.hash).getD 0 + 1 < invalidBlockHitEviction →
          (checkInvalidAncestor st check head).1 =
            some { status := .INVALID,
                   latestValidHash := some (ancestorLastValid st.chain inv),
                   validationError := some errLinksToRejected }
          ∧ lookupA (checkInvalidAncestor st check head).2.invalidBlocksHits inv.hash =
              some ((lookupA st.invalidBlocksHits inv.hash).getD 0 + 1)
          ∧ (check ≠ head →
              (checkInvalidAncestor st check head).2.invalidTipsets =
                insertA (evictTipsets st.invalidTipsets) head inv)
          ∧ (check = head →
              (checkInvalidAncestor st check head).2.invalidTipsets =
                st.invalidTipsets))) := by
  constructor
  · intro h
    simp [checkInvalidAncestor, h]
  · intro inv hinv
    constructor
    · intro hle
      have hres : checkInvalidAncestor st check head =
          (none,
           { st with invalidBlocksHits := eraseA st.invalidBlocksHits inv.hash,
                     invalidTipsets :=
                       st.invalidTipsets.filter (fun p => p.2.hash ≠ inv.hash) }) := by
        simp [checkInvalidAncestor, hinv, hle]
      refine ⟨by rw [hres], by rw [hres]; exact lookupA_eraseA_self _ _, ?_⟩
      intro d hd hl
      rw [hres] at hl
      have h2 := lookupA_filter_prop st.invalidTipsets _ d hd hl
      simp at h2
      exact h2
    · intro hlt
      have hnle : ¬ invalidBlockHitEviction ≤ (lookupA st.invalidBlocksHits inv.hash).getD 0 + 1 :=
        not_le.mpr hlt
      by_cases hch : check = head
      · subst hch
        have hres : checkInvalidAncestor st check check =
            (some { status := .INVALID,
                    latestValidHash := some (ancestorLastValid st.chain inv),
                    validationError := some errLinksToRejected },
             { st with
               invalidBlocksHits :=
                 insertA st.invalidBlocksHits inv.hash
                   ((lookupA st.invalidBlocksHits inv.hash).getD 0 + 1) }) := by
          simp [checkInvalidAncestor, hinv, hnle]
        refine ⟨by rw [hres], by rw [hres]; exact lookupA_insertA_self _ _ _,
                fun h => absurd rfl h, fun _ => by rw [hres]⟩
      · have hres : checkInvalidAncestor st check head =
            (some { status := .INVALID,
                    latestValidHash := some (ancestorLastValid st.chain inv),
                    validationError := some errLinksToRejected },
             { st with
               invalidBlocksHits :=
                 insertA st.invalidBlocksHits inv.hash
                   ((lookupA st.invalidBlocksHits inv.hash).getD 0 + 1),
               invalidTipsets := insertA (evictTipsets st.invalidTipsets) head inv }) := by
          simp [checkInvalidAncestor, hinv, hnle, hch]
        refine ⟨by rw [hres], by rw [hres]; exact lookupA_insertA_self _ _ _,
                fun _ => by rw [hres], fun h => absurd h hch⟩

/-- State whose tracker holds tipset 60 ↦ badHdr with no recorded hits. -/
def c1WState : EngineState :=
  { baseState exChain with invalidTipsets := [(60, badHdr)] }

/-- Witness for the amended C1 theorem: a first taint reference yields the
INVALID rejection and a stored hit count of one. -/
theorem checkInvalidAncestor_amended_witness :
    (checkInvalidAncestor c1WState 60 61).1 =
      some { status := .INVALID,
             latestValidHash := some (ancestorLastValid c1WState.chain badHdr),
             validationError := some errLinksToRejected }
    ∧ lookupA (checkInvalidAncestor c1WState 60 61).2.invalidBlocksHits badHdr.hash =
        some ((lookupA c1WState.invalidBlocksHits badHdr.hash).getD 0 + 1) :=
  ⟨(((checkInvalidAncestor_amended c1WState 60 61).2 badHdr (by decide)).2 (by decide)).1,
   (((checkInvalidAncestor_amended c1WState 60 61).2 badHdr (by decide)).2 (by decide)).2.1⟩

theorem checkInvalidAncestor_chain (st : EngineState) (c h : Nat) :
    (checkInvalidAncestor st c h).2.chain = st.chain := by
  rcases hl : lookupA st.invalidTipsets c with _ | inv
  · simp [checkInvalidAncestor, hl]
  · simp only [checkInvalidAncestor, hl]
    split
    · rfl
    · split <;> rfl

theorem checkInvalidAncestor_some_invalid (st : EngineState) (c h : Nat)
    (r : PayloadStatusV1) (hr : (checkInvalidAncestor st c h).1 = some r) :
    r.status = .INVALID := by
  rcases hl : lookupA st.invalidTipsets c with _ | inv
  · simp [checkInvalidAncestor, hl] at hr
  · simp only [checkInvalidAncestor, hl] at hr
    by_cases hle : invalidBlockHitEviction ≤ (lookupA st.invalidBlocksHits inv.hash).getD 0 + 1
    · simp [hle] at hr
    · simp only [if_neg hle] at hr
      cases hr
      rfl

theorem delayPayloadImport_not_valid (st : EngineState) (b : Block) :
    (delayPayloadImport st b).1.status ≠ .VALID := by
  rcases hc : checkInvalidAncestor st b.header.parentHash b.hash with ⟨o, st1⟩
  cases o with
  | none => simp [delayPayloadImport, hc]
  | some r =>
    have hinv : r.status = .INVALID :=
      checkInvalidAncestor_some_invalid st _ _ r (by rw [hc])
    simp [delayPayloadImport, hc, hinv]

theorem decodeExecData_hash (p : ExecData) (block : Block)
    (hd : decodeExecData p = some block) : block.header.hash = p.blockHash := by
  by_cases hok : p.decodeOK = true
  · simp only [decodeExecData, hok, if_true] at hd
    cases hd
    rfl
  · simp [decodeExecData, hok] at hd

/-- Chain over the example blocks with the Optimism flag set
(pre-Holocene). -/
def exOptChain : Chain := { exChain with config := exCfgOpt }

/-- Payload resending the already-imported example tip block but with
non-empty extra data. -/
def c2P : ExecData :=
  { blockHash := 3, parentHash := 2, number := 2, timestamp := 20, extraData := [1],
    txs := [], withdrawals := none, withdrawalsRoot := none, excessBlobGas := none,
    blobGasUsed := none, decodeOK := true }

/-- C2 counterexample: on an Optimism chain before Holocene, a payload
that decodes to an already-known block but carries non-empty extra data is
answered INVALID by the extra-data gate, which runs before the
already-known short-circuit; the claim demands VALID for every decodable
already-known payload. -/
theorem newPayload_known_extradata_cex :
    (decodeExecData c2P).isSome = true
    ∧ (getBlockByHash (baseState exOptChain).chain c2P.blockHash).isSome = true
    ∧ (newPayload (baseState exOptChain) c2P).1.status = .INVALID := by
  decide

/-- C2 (amended): a new-payload call that passes the OP-Stack extra-data
gate and whose payload decodes to a block already known locally returns
VALID with that block's hash, mutating nothing but the liveness stamp;
consequently a byte-identical resend of any gate-passing payload the node
answered VALID is VALID again via the already-known path. -/
theorem newPayload_known_idempotent (st : EngineState) (p : ExecData) (block b : Block) :
    (npExtraDataGate st.chain.config p = none → decodeExecData p = some block →
      getBlockByHash st.chain p.blockHash = some b →
      newPayload st p =
        ({ status := .VALID, latestValidHash := some b.hash, validationError := none },
         { st with npStamp := true }))
    ∧ (npExtraDataGate st.chain.config p = none → decodeExecData p = some block →
      (newPayload st p).1.status = .VALID →
      (newPayload (newPayload st p).2 p).1.status = .VALID) := by
  constructor
  · intro hg hd hk
    simp [newPayload, hg, hd, hk]
  · intro hg hd hv
    rcases hk : getBlockByHash st.chain p.blockHash with _ | b2
    · rcases hci : checkInvalidAncestor { st with npStamp := true } block.hash block.hash
        with ⟨o, st1⟩
      have hchain : st1.chain = st.chain := by
        have := checkInvalidAncestor_chain { st with npStamp := true } block.hash block.hash
        rw [hci] at this
        exact this
      cases o with
      | some r =>
        have hnp : newPayload st p = (r, st1) := by
          simp [newPayload, hg, hd, hk, hci]
        have : r.status = .INVALID :=
          checkInvalidAncestor_some_invalid _ _ _ r (by rw [hci])
        rw [hnp] at hv
        simp [this] at hv
      | none =>
        rcases hp : getBlock st.chain block.header.parentHash (pred64 block.header.number)
          with _ | parent
        · have hnp : newPayload st p = delayPayloadImport st1 block := by
            simp [newPayload, hg, hd, hk, hci, hchain, hp]
          rw [hnp] at hv
          exact absurd hv (delayPayloadImport_not_valid st1 block)
        · by_cases hts : block.header.time ≤ parent.header.time
          · have hnp : newPayload st p =
                (invalidResp errInvalidTimestamp (some parent.header), st1) := by
              simp [newPayload, hg, hd, hk, hci, hchain, hp, hts]
            rw [hnp] at hv
            simp [invalidResp] at hv
          · by_cases hfs : st.chain.fullSync = true
            · by_cases hbs : hasBlockAndState st.chain block.header.parentHash = true
              · rcases hio : st.chain.insertOutcome block.hash with _ | e
                · have hnp : newPayload st p =
                      ({ status := .VALID, latestValidHash := some block.hash,
                         validationError := none },
                       { st1 with chain :=
                           { st1.chain with blocks := block :: st1.chain.blocks } }) := by
                    simp [newPayload, hg, hd, hk, hci, hchain, hp, hts, hfs, hbs, hio]
                  rw [hchain] at hnp
                  rw [hnp]
                  have hbh2 : block.header.hash = p.blockHash := decodeExecData_hash p block hd
                  have hfind : getBlockByHash
                      { st.chain with blocks := block :: st.chain.blocks } p.blockHash
                      = some block := by
                    simp [getBlockByHash, List.find?_cons, hbh2]
                  simp [newPayload, hg, hd, hfind, getBlockByHash, List.find?_cons, hbh2]
                · have hnp : newPayload st p =
                      (invalidResp e (some parent.header),
                       { st1 with
                         invalidBlocksHits := insertA st1.invalidBlocksHits block.hash 1,
                         invalidTipsets := insertA st1.invalidTipsets block.hash block.header }) := by
                    simp [newPayload, hg, hd, hk, hci, hchain, hp, hts, hfs, hbs, hio]
                  rw [hnp] at hv
                  simp [invalidResp] at hv
              · have hnp : (newPayload st p).1.status = .ACCEPTED := by
                  simp [newPayload, hg, hd, hk, hci, hchain, hp, hts, hfs, hbs]
                rw [hnp] at hv
                cases hv
            · have hnp : newPayload st p = delayPayloadImport st1 block := by
                simp [newPayload, hg, hd, hk, hci, hchain, hp, hts, hfs]
              rw [hnp] at hv
              exact absurd hv (delayPayloadImport_not_valid st1 block)
    · have hnp : newPayload st p =
          ({ status := .VALID, latestValidHash := some b2.hash, validationError := none },
           { st with npStamp := true }) := by
        simp [newPayload, hg, hd, hk]
      rw [hnp]
      simp [newPayload, hg, hd, hk]

/-- A byte-identical resend of the example chain tip with empty extra
data. -/
def c2WP : ExecData :=
  { blockHash := 3, parentHash := 2, number := 2, timestamp := 20, extraData := [],
    txs := [], withdrawals := none, withdrawalsRoot := none, excessBlobGas := none,
    blobGasUsed := none, decodeOK := true }

/-- Witness for the amended C2 theorem: resending the known tip block
yields VALID with its hash and only the liveness stamp changes. -/
theorem newPayload_known_idempotent_witness :
    newPayload exState c2WP =
      ({ status := .VALID, latestValidHash := some bBlock.hash, validationError := none },
       { exState with npStamp := true }) :=
  (newPayload_known_idempotent exState c2WP bBlock bBlock).1 (by decide) (by decide) (by decide)

/-- A not-yet-known child of the example tip with non-increasing
timestamp and non-empty extra data. -/
def c3P : ExecData :=
  { blockHash := 99, parentHash := 3, number := 3, timestamp := 15, extraData := [1],
    txs := [], withdrawals := none, withdrawalsRoot := none, excessBlobGas := none,
    blobGasUsed := none, decodeOK := true }

/-- The block c3P decodes to. -/
def c3Block : Block := ⟨⟨99, 3, 3, 0, 15, none⟩, [], none⟩

/-- C3 counterexample: on an Optimism chain before Holocene, a decodable,
unknown, untainted payload with known parent and non-increasing timestamp
but non-empty extra data is rejected by the extra-data gate with no
latest-valid hash, not with the parent as latest-valid reference as the
claim demands. -/
theorem newPayload_timestamp_cex :
    decodeExecData c3P = some c3Block
    ∧ getBlockByHash (baseState exOptChain).chain c3P.blockHash = none
    ∧ lookupA (baseState exOptChain).invalidTipsets c3Block.hash = none
    ∧ getBlock (baseState exOptChain).chain c3Block.header.parentHash
        (pred64 c3Block.header.number) = some bBlock
    ∧ c3Block.header.time ≤ bBlock.header.time
    ∧ (newPayload (baseState exOptChain) c3P).1.status = .INVALID
    ∧ (newPayload (baseState exOptChain) c3P).1.latestValidHash = none := by
  decide

/-- C3 (amended): a decodable, unknown, untainted payload whose parent is
known and whose timestamp does not exceed the parent's is always answered
with status INVALID; when it additionally passes the OP-Stack extra-data
gate, the response is exactly the invalid-timestamp rejection built from
the parent header (parent hash as latest valid, zeroed for a
proof-of-work parent), with only the liveness stamp changing. -/
theorem newPayload_timestamp_rejected (st : EngineState) (p : ExecData)
    (block parent : Block)
    (hd : decodeExecData p = some block)
    (hk : getBlockByHash st.chain p.blockHash = none)
    (ht : lookupA st.invalidTipsets block.hash = none)
    (hp : getBlock st.chain block.header.parentHash (pred64 block.header.number) = some parent)
    (hts : block.header.time ≤ parent.header.time) :
    (newPayload st p).1.status = .INVALID
    ∧ (npExtraDataGate st.chain.config p = none →
      newPayload st p =
        (invalidResp errInvalidTimestamp (some parent.header), { st with npStamp := true })) := by
  have hci : checkInvalidAncestor { st with npStamp := true } block.hash block.hash =
      (none, { st with npStamp := true }) := by
    simp [checkInvalidAncestor, ht]
  have hmain : npExtraDataGate st.chain.config p = none →
      newPayload st p =
        (invalidResp errInvalidTimestamp (some parent.header), { st with npStamp := true }) := by
    intro hg
    simp [newPayload, hg, hd, hk, hci, hp, hts]
  refine ⟨?_, hmain⟩
  rcases hg : npExtraDataGate st.chain.config p with _ | e
  · rw [hmain hg]
    simp [invalidResp]
  · simp [newPayload, hg, invalidResp]

/-- The c3 payload with empty extra data (gate passing). -/
def c3WP : ExecData :=
  { blockHash := 99, parentHash := 3, number := 3, timestamp := 15, extraData := [],
    txs := [], withdrawals := none, withdrawalsRoot := none, excessBlobGas := none,
    blobGasUsed := none, decodeOK := true }

/-- Witness for the amended C3 theorem at a concrete stale-timestamp
payload on the example chain. -/
theorem newPayload_timestamp_rejected_witness :
    (newPayload exState c3WP).1.status = .INVALID
    ∧ (npExtraDataGate exState.chain.config c3WP = none →
      newPayload exState c3WP =
        (invalidResp errInvalidTimestamp (some bBlock.header), { exState with npStamp := true })) :=
  newPayload_timestamp_rejected exState c3WP c3Block bBlock (by decide) (by decide)
    (by decide) (by decide) (by decide)

/-- C5: when a decodable, unknown, untainted, gate-passing payload with a
known parent, increasing timestamp, full-sync mode and available parent
state fails block insertion, the tracker afterwards stores hit count 1
for the block's hash and a tipset entry mapping the hash to its own
header, and the response is INVALID with the parent hash as latest valid
(zeroed for a proof-of-work parent) and the execution error attached. -/
theorem newPayload_insert_failure (st : EngineState) (p : ExecData)
    (block parent : Block) (e : Nat)
    (hg : npExtraDataGate st.chain.config p = none)
    (hd : decodeExecData p = some block)
    (hk : getBlockByHash st.chain p.blockHash = none)
    (ht : lookupA st.invalidTipsets block.hash = none)
    (hp : getBlock st.chain block.header.parentHash (pred64 block.header.number) = some parent)
    (hts : ¬ block.header.time ≤ parent.header.time)
    (hfs : st.chain.fullSync = true)
    (hbs : hasBlockAndState st.chain block.header.parentHash = true)
    (hio : st.chain.insertOutcome block.hash = some e) :
    newPayload st p =
      (invalidResp e (some parent.header),
       { st with npStamp := true,
                 invalidBlocksHits := insertA st.invalidBlocksHits block.hash 1,
                 invalidTipsets := insertA st.invalidTipsets block.hash block.header })
    ∧ lookupA (newPayload st p).2.invalidBlocksHits block.hash = some 1
    ∧ lookupA (newPayload st p).2.invalidTipsets block.hash = some block.header
    ∧ (newPayload st p).1.status = .INVALID
    ∧ (newPayload st p).1.latestValidHash =
        some (if parent.header.difficulty ≠ 0 then 0 else parent.header.hash)
    ∧ (newPayload st p).1.validationError = some e := by
  have hci : checkInvalidAncestor { st with npStamp := true } block.hash block.hash =
      (none, { st with npStamp := true }) := by
    simp [checkInvalidAncestor, ht]
  have hmain : newPayload st p =
      (invalidResp e (some parent.header),
       { st with npStamp := true,
                 invalidBlocksHits := insertA st.invalidBlocksHits block.hash 1,
                 invalidTipsets := insertA st.invalidTipsets block.hash block.header }) := by
    simp [newPayload, hg, hd, hk, hci, hp, hts, hfs, hbs, hio]
  refine ⟨hmain, ?_, ?_, ?_, ?_, ?_⟩ <;> rw [hmain] <;>
    simp [invalidResp, lookupA_insertA_self]

/-- Example chain whose insertion collaborator fails block 99 with error
code 13. -/
def c5Chain : Chain :=
  { exChain with insertOutcome := fun h => if h = 99 then some 13 else none }

/-- A well-formed child of the example tip that will fail insertion. -/
def c5P : ExecData :=
  { blockHash := 99, parentHash := 3, number := 3, timestamp := 25, extraData := [],
    txs := [], withdrawals := none, withdrawalsRoot := none, excessBlobGas := none,
    blobGasUsed := none, decodeOK := true }

/-- The block c5P decodes to. -/
def c5Block : Block := ⟨⟨99, 3, 3, 0, 25, none⟩, [], none⟩

/-- Witness for C5 at a concrete failing insertion. -/
theorem newPayload_insert_failure_witness :
    newPayload (baseState c5Chain) c5P =
      (invalidResp 13 (some bBlock.header),
       { baseState c5Chain with
           npStamp := true,
           invalidBlocksHits := insertA (baseState c5Chain).invalidBlocksHits c5Block.hash 1,
           invalidTipsets :=
             insertA (baseState c5Chain).invalidTipsets c5Block.hash c5Block.header })
    ∧ lookupA (newPayload (baseState c5Chain) c5P).2.invalidBlocksHits c5Block.hash = some 1
    ∧ lookupA (newPayload (baseState c5Chain) c5P).2.invalidTipsets c5Block.hash =
        some c5Block.header
    ∧ (newPayload (baseState c5Chain) c5P).1.status = .INVALID
    ∧ (newPayload (baseState c5Chain) c5P).1.latestValidHash =
        some (if bBlock.header.difficulty ≠ 0 then 0 else bBlock.header.hash)
    ∧ (newPayload (baseState c5Chain) c5P).1.validationError = some 13 :=
  newPayload_insert_failure (baseState c5Chain) c5P c5Block bBlock 13 (by decide) (by decide)
    (by decide) (by decide) (by decide) (by decide) (by decide) (by decide) (by decide)

/-- A payload id recorded with build version V1. -/
def exIdV1 : PayloadID := ⟨.V1, 2, 30, 0, 0, false, false⟩

/-- A payload id recorded with build version V3. -/
def exIdV3 : PayloadID := ⟨.V3, 3, 40, 0, 0, true, true⟩

/-- Engine state caching payloads for a V1-built and a V3-built id. -/
def c8State : EngineState :=
  { baseState exChain with localPayloads := [(exIdV1, 7), (exIdV3, 9)] }

/-- C8 counterexample: GetPayloadV2 serves a V1-built id and GetPayloadV4
serves a V3-built id, refuting the exact per-entry-point acceptance
(V2 only V2-built, V4 only V4-built) asserted by the claim. -/
theorem getPayload_version_cex :
    exIdV1.version = .V1
    ∧ GetPayloadV2 c8State exIdV1 = .ok 7
    ∧ exIdV3.version = .V3
    ∧ GetPayloadV4 c8State exIdV3 = .ok 9 :=
  ⟨rfl, rfl, rfl, rfl⟩

/-- C8 (amended): each get-payload entry point rejects ids whose recorded
build version is outside its acceptance set with an unsupported-fork
error, where V1 accepts only V1-built ids, V2 accepts V1- and V2-built
ids, and V3 and V4 both accept only V3-built ids; a version-accepted id
missing from the local payload cache yields the unknown-payload error,
and a cached accepted id is served. -/
theorem getPayload_version_gate (st : EngineState) (id : PayloadID) :
    (id.version ≠ .V1 → GetPayloadV1 st id = .error .unsupportedFork)
    ∧ (id.version = .V1 → lookupA st.localPayloads id = none →
        GetPayloadV1 st id = .error .unknownPayload)
    ∧ (id.version = .V3 → GetPayloadV2 st id = .error .unsupportedFork)
    ∧ ((id.version = .V1 ∨ id.version = .V2) → lookupA st.localPayloads id = none →
        GetPayloadV2 st id = .error .unknownPayload)
    ∧ (id.version ≠ .V3 → GetPayloadV3 st id = .error .unsupportedFork)
    ∧ (id.version = .V3 → lookupA st.localPayloads id = none →
        GetPayloadV3 st id = .error .unknownPayload)
    ∧ (id.version ≠ .V3 → GetPayloadV4 st id = .error .unsupportedFork)
    ∧ (id.version = .V3 → lookupA st.localPayloads id = none →
        GetPayloadV4 st id = .error .unknownPayload)
    ∧ (∀ v, lookupA st.localPayloads id = some v →
        (id.version = .V1 ∨ id.version = .V2) → GetPayloadV2 st id = .ok v) := by
  refine ⟨fun h => ?_, fun h hl => ?_, fun h => ?_, fun h hl => ?_, fun h => ?_,
          fun h hl => ?_, fun h => ?_, fun h hl => ?_, fun v hl h => ?_⟩
  · simp [GetPayloadV1, h]
  · simp [GetPayloadV1, h, getPayload, hl]
  · simp [GetPayloadV2, h]
  · simp [GetPayloadV2, h, getPayload, hl]
  · simp [GetPayloadV3, h]
  · simp [GetPayloadV3, h, getPayload, hl]
  · simp [GetPayloadV4, h]
  · simp [GetPayloadV4, h, getPayload, hl]
  · simp [GetPayloadV2, h, getPayload, hl]

/-- Witness for the amended C8 theorem: a V3-built id is rejected by
GetPayloadV1 and served when cached by GetPayloadV2 only if V1/V2-built;
an uncached V3 id is unknown to GetPayloadV4. -/
theorem getPayload_version_gate_witness :
    GetPayloadV1 c8State exIdV3 = .error .unsupportedFork
    ∧ GetPayloadV2 c8State exIdV3 = .error .unsupportedFork
    ∧ GetPayloadV4 (baseState exChain) exIdV3 = .error .unknownPayload :=
  ⟨(getPayload_version_gate c8State exIdV3).1 (by decide),
   (getPayload_version_gate c8State exIdV3).2.2.1 (by decide),
   (getPayload_version_gate (baseState exChain) exIdV3).2.2.2.2.2.2.2.1 (by decide) (by decide)⟩

theorem validateRequestsAux_some_iff (p : Nat) (rs : List (List Nat)) :
    validateRequestsAux (some p) rs = true ↔
      (∀ r ∈ rs, 2 ≤ r.length)
      ∧ List.Chain' (· < ·) (p :: rs.map (fun r => r.headD 0)) := by
  induction rs generalizing p with
  | nil => simp [validateRequestsAux]
  | cons r rest ih =>
    by_cases h2 : r.length < 2
    · simp only [validateRequestsAux, if_pos h2]
      constructor
      · intro hf
        exact absurd hf (by simp)
      · rintro ⟨hall, _⟩
        exact absurd (hall r (List.mem_cons_self _ _)) (by omega)
    · by_cases hle : r.headD 0 ≤ p
      · simp only [validateRequestsAux, if_neg h2, if_pos hle]
        constructor
        · intro hf
          exact absurd hf (by simp)
        · rintro ⟨_, hch⟩
          rw [List.map_cons, List.chain'_cons] at hch
          omega
      · simp only [validateRequestsAux, if_neg h2, if_neg hle]
        rw [ih]
        constructor
        · rintro ⟨hall, hch⟩
          refine ⟨fun x hx => ?_, ?_⟩
          · rcases List.mem_cons.mp hx with hx | hx
            · subst hx; omega
            · exact hall x hx
          · rw [List.map_cons, List.chain'_cons]
            exact ⟨by omega, hch⟩
        · rintro ⟨hall, hch⟩
          rw [List.map_cons, List.chain'_cons] at hch
          exact ⟨fun x hx => hall x (List.mem_cons_of_mem _ hx), hch.2⟩

theorem validateRequests_iff (rs : List (List Nat)) :
    validateRequests rs = true ↔
      (∀ r ∈ rs, 2 ≤ r.length)
      ∧ List.Chain' (· < ·) (rs.map (fun r => r.headD 0)) := by
  cases rs with
  | nil => simp [validateRequests, validateRequestsAux]
  | cons r rest =>
    by_cases h2 : r.length < 2
    · simp only [validateRequests, validateRequestsAux, if_pos h2]
      constructor
      · intro hf
        exact absurd hf (by simp)
      · rintro ⟨hall, _⟩
        exact absurd (hall r (List.mem_cons_self _ _)) (by omega)
    · simp only [validateRequests, validateRequestsAux, if_neg h2]
      rw [validateRequestsAux_some_iff]
      constructor
      · rintro ⟨hall, hch⟩
        refine ⟨fun x hx => ?_, by rw [List.map_cons]; exact hch⟩
        rcases List.mem_cons.mp hx with hx | hx
        · subst hx; omega
        · exact hall x hx
      · rintro ⟨hall, hch⟩
        rw [List.map_cons] at hch
        exact ⟨fun x hx => hall x (List.mem_cons_of_mem _ hx), hch⟩

/-- C9: for NewPayloadV4 and NewPayloadWithWitnessV4 calls that pass the
per-fork field-presence checks, the execution-requests list is validated
before any payload processing — validity meaning every request is at
least two bytes long and the leading type bytes strictly increase — and a
violation is answered INVALID with an invalid-params error and no state
change, while ExecuteStatelessPayloadV4 performs no such request
validation and proceeds straight to the stateless core. -/
theorem newPayloadV4_requests_validation (st : EngineState) (p : ExecData)
    (vh : Option (List Nat)) (br : Option Nat) (reqs : List (List Nat))
    (hw : p.withdrawals ≠ none) (hx : p.excessBlobGas ≠ none)
    (hb : p.blobGasUsed ≠ none) (hv : vh ≠ none) (hr : br ≠ none)
    (hf : st.chain.config.latestForkAt p.timestamp = .prague)
    (hi : ¬ (isIsthmus st.chain.config p.timestamp = true ∧ p.withdrawalsRoot = none)) :
    (validateRequests reqs = false →
      NewPayloadV4 st p vh br (some reqs) =
        ((statusOnlyInvalid, some (.invalidParams errBadRequests)), st)
      ∧ NewPayloadWithWitnessV4 st p vh br (some reqs) =
        ((statusOnlyInvalid, some (.invalidParams errBadRequests)), st))
    ∧ (∀ w, ExecuteStatelessPayloadV4 st p vh br (some reqs) w =
        executeStatelessPayload st p w)
    ∧ (validateRequests reqs = true ↔
        (∀ r ∈ reqs, 2 ≤ r.length)
        ∧ List.Chain' (· < ·) (reqs.map (fun r => r.headD 0))) := by
  refine ⟨fun hreq => ⟨?_, ?_⟩, fun w => ?_, validateRequests_iff reqs⟩
  · simp [NewPayloadV4, hw, hx, hb, hv, hr, hf, hi, hreq]
  · simp [NewPayloadWithWitnessV4, hw, hx, hb, hv, hr, hf, hi, hreq]
  · simp [ExecuteStatelessPayloadV4, hw, hx, hb, hv, hr, hf]

/-- A V4 payload with all fork-required fields present. -/
def c9P : ExecData :=
  { blockHash := 99, parentHash := 3, number := 3, timestamp := 25, extraData := [],
    txs := [], withdrawals := some [], withdrawalsRoot := some 4,
    excessBlobGas := some 0, blobGasUsed := some 0, decodeOK := true }

/-- Witness for C9: a one-byte request is rejected by both V4 import entry
points with no state change, and the stateless V4 entry point ignores the
malformed requests entirely. -/
theorem newPayloadV4_requests_validation_witness :
    (NewPayloadV4 exState c9P (some []) (some 0) (some [[1], [2, 2]]) =
      ((statusOnlyInvalid, some (.invalidParams errBadRequests)), exState)
    ∧ NewPayloadWithWitnessV4 exState c9P (some []) (some 0) (some [[1], [2, 2]]) =
      ((statusOnlyInvalid, some (.invalidParams errBadRequests)), exState))
    ∧ ExecuteStatelessPayloadV4 exState c9P (some []) (some 0) (some [[1], [2, 2]]) [] =
      executeStatelessPayload exState c9P [] :=
  ⟨(newPayloadV4_requests_validation exState c9P (some []) (some 0) [[1], [2, 2]]
      (by decide) (by decide) (by decide) (by decide) (by decide) rfl (by decide)).1
      (by decide),
   (newPayloadV4_requests_validation exState c9P (some []) (some 0) [[1], [2, 2]]
      (by decide) (by decide) (by decide) (by decide) (by decide) rfl (by decide)).2.1 []⟩

theorem fcuSetFinalized_synced (s : EngineState) (fh : Nat) (s2 : EngineState)
    (h : fcuSetFinalized s fh = .ok s2) : s2.syncedFlag = s.syncedFlag := by
  unfold fcuSetFinalized at h
  split at h
  · cases h
    rfl
  · split at h
    · cases h
    · split at h
      · cases h
      · cases h
        rfl

theorem fcuSetSafe_synced (s : EngineState) (sh : Nat) (s2 : EngineState)
    (h : fcuSetSafe s sh = .ok s2) : s2.syncedFlag = s.syncedFlag := by
  unfold fcuSetSafe at h
  split at h
  · cases h
    rfl
  · split at h
    · cases h
    · split at h
      · cases h
      · cases h
        rfl

theorem fcuAttrs_synced (s : EngineState) (h : Nat) (a : Option PayloadAttributes)
    (pv : PVersion) : (fcuAttrs s h a pv).2.2.syncedFlag = s.syncedFlag := by
  unfold fcuAttrs
  rcases a with _ | pa
  · rfl
  · repeat' split
    all_goals first
      | rfl
      | (dsimp only
         split <;> rfl)

theorem fcuPostHead_synced (st : EngineState) (update : ForkchoiceStateV1)
    (attrs : Option PayloadAttributes) (pv : PVersion) :
    (fcuPostHead st update attrs pv).2.2.syncedFlag = true := by
  unfold fcuPostHead
  rcases hf : fcuSetFinalized { st with syncedFlag := true } update.finalizedBlockHash
    with re | st2
  · obtain ⟨r, e⟩ := re
    simp [hf]
  · have h2 : st2.syncedFlag = true := by
      have := fcuSetFinalized_synced _ _ _ hf
      simpa using this
    rcases hs : fcuSetSafe st2 update.safeBlockHash with re2 | st3
    · obtain ⟨r, e⟩ := re2
      simp [hf, hs, h2]
    · have h3 : st3.syncedFlag = true := by
        rw [fcuSetSafe_synced _ _ _ hs]
        exact h2
      simp [hf, hs, fcuAttrs_synced, h3]

/-- C4: when the requested head is locally known, post-merge (zero
difficulty), on the canonical chain but not the current canonical tip,
a chain with the Optimism config does not ignore the stale update —
processing continues through the committed-head continuation (which marks
the node synced, checks and sets the finalized and safe pointers and runs
payload construction when attributes are present) — whereas without the
Optimism config the same call immediately returns VALID with no payload
id and no further effect. -/
theorem fcu_optimism_stale_head (st : EngineState) (update : ForkchoiceStateV1)
    (attrs : Option PayloadAttributes) (pv : PVersion) (block : Block)
    (h0 : update.headBlockHash ≠ 0)
    (hk : getBlockByHash st.chain update.headBlockHash = some block)
    (hdiff : block.header.difficulty = 0)
    (hcanon : readCanonicalHash st.chain block.header.number = update.headBlockHash)
    (htip : st.chain.currentHash ≠ update.headBlockHash) :
    (st.chain.config.optimism = true →
      forkchoiceUpdated st update attrs pv =
        fcuPostHead { st with fcuStamp := true } update attrs pv
      ∧ (forkchoiceUpdated st update attrs pv).2.2.syncedFlag = true)
    ∧ (st.chain.config.optimism = false →
      forkchoiceUpdated st update attrs pv =
        (fcuValid update.headBlockHash none, none, { st with fcuStamp := true })) := by
  have hstep : forkchoiceUpdated st update attrs pv =
      fcuHeadSwitch { st with fcuStamp := true } update attrs pv block := by
    simp [forkchoiceUpdated, h0, hk, hdiff]
  constructor
  · intro hopt
    have hsw : fcuHeadSwitch { st with fcuStamp := true } update attrs pv block =
        fcuPostHead { st with fcuStamp := true } update attrs pv := by
      simp [fcuHeadSwitch, hcanon, htip, hopt]
    refine ⟨by rw [hstep, hsw], ?_⟩
    rw [hstep, hsw]
    exact fcuPostHead_synced _ _ _ _
  · intro hopt
    rw [hstep]
    simp [fcuHeadSwitch, hcanon, htip, hopt]

/-- Witness for C4: re-affirming the stale canonical block number 1 as
head continues processing under the Optimism config and is ignored with a
bare VALID without it. -/
theorem fcu_optimism_stale_head_witness :
    (forkchoiceUpdated (baseState exOptChain) ⟨2, 0, 0⟩ none .V3 =
       fcuPostHead { baseState exOptChain with fcuStamp := true } ⟨2, 0, 0⟩ none .V3
     ∧ (forkchoiceUpdated (baseState exOptChain) ⟨2, 0, 0⟩ none .V3).2.2.syncedFlag = true)
    ∧ forkchoiceUpdated exState ⟨2, 0, 0⟩ none .V3 =
        (fcuValid 2 none, none, { exState with fcuStamp := true }) :=
  ⟨(fcu_optimism_stale_head (baseState exOptChain) ⟨2, 0, 0⟩ none .V3 aBlock
      (by decide) (by decide) (by decide) (by decide) (by decide)).1 rfl,
   (fcu_optimism_stale_head exState ⟨2, 0, 0⟩ none .V3 aBlock
      (by decide) (by decide) (by decide) (by decide) (by decide)).2 rfl⟩
